import Mathlib

/-!
Verification of the SmartWater-AI frontend's authenticated API client and
view-state coordinator layer, shallowly embedded from the React sources:
`src/frontend/src/pages/Monitor.jsx`, `Dashboard.jsx` and `Login.jsx`
(in `src/unnamed/part_001`), `DistributionDashboard.jsx`
(in `src/unnamed/part_002`).

The browser `localStorage` session is modelled as an explicit record of
optional string slots; `useState` screen state as explicit state records;
each event handler as a state-transition function; and the interleaving of
UI actions with network completions as a list of events folded over a step
function.  JavaScript truthiness on strings and numbers is modelled
explicitly (`jsFalsy`, `jsOrZero`).
-/

namespace SmartWater

/-- The browser `localStorage` slots this app reads and writes:
`access_token`, `mc_code`, `mc_name` and the JSON `user` object
(modelled as its field triple `(username, mc_code, mc_name)` instead of
the serialized text).  `none` models an absent key (`getItem` → `null`). -/
structure SessionStore where
  access_token : Option String
  mc_code : Option String
  mc_name : Option String
  user : Option (String × String × String)
deriving DecidableEq, Repr

/-- The empty storage: no key set. -/
def emptyStore : SessionStore := ⟨none, none, none, none⟩

/-- `localStorage.clear()` as used by every `handleLogout`. -/
def clearedStore : SessionStore := ⟨none, none, none, none⟩

/-- JavaScript truthiness of a nullable string: `null` and `""` are falsy.
Models conditions such as `if (!token)` and `if (!mcCode)`. -/
def jsFalsy : Option String → Bool
  | none => true
  | some s => s = ""

/-- The navigation outcomes the embedded handlers can trigger. -/
inductive Nav
  | stay
  | dashboard
  | login
deriving DecidableEq, Repr

/-- The backend's login response body `{status, token, mc_code, mc_name}`. -/
structure LoginResponse where
  status : String
  token : String
  mc_code : String
  mc_name : String
deriving DecidableEq, Repr

/-- `handleLogin` from `Login.jsx` (`src/unnamed/part_001`, lines 269-299),
success path after the POST resolves: when `res.data.status === "success"`
it writes `mc_code`, `mc_name` and the stringified `user` object to
`localStorage` and navigates to `/dashboard`; it never writes
`access_token`.  On any other status it only sets the error message.
Returns the updated store, the navigation and the error message. -/
def handleLogin (st : SessionStore) (username : String) (resp : LoginResponse) :
    SessionStore × Nav × String :=
  if resp.status = "success" then
    ({ st with
        mc_code := some resp.mc_code
        mc_name := some resp.mc_name
        user := some (username, resp.mc_code, resp.mc_name) },
      Nav.dashboard, "")
  else
    (st, Nav.stay, "Invalid credentials. Please check again.")

/-- What a screen's mount effects do: whether they navigate to `/login`,
and the list of request paths they issue. -/
structure MountResult where
  redirect : Bool
  requests : List String
deriving DecidableEq, Repr

/-- The hubs endpoint path for a municipality code. -/
def hubsUrl (mc : String) : String := "/api/mc/" ++ mc ++ "/hubs"

/-- Monitor's mount effect (`Monitor.jsx`, lines 35-44): it checks only
`mc_code`; when falsy it navigates to `/login`, otherwise it issues the
hubs GET (through plain `axios`, without any auth header). -/
def monitorMount (st : SessionStore) : MountResult :=
  if jsFalsy st.mc_code then ⟨true, []⟩
  else ⟨false, [hubsUrl (st.mc_code.getD "")]⟩

/-- Dashboard's mount effect (`src/unnamed/part_001`, lines 34-58): when
`token` or `mc_code` is falsy it navigates to `/login` and returns before
fetching; otherwise it issues the hubs GET through its `axiosAuth`. -/
def dashboardMount (st : SessionStore) : MountResult :=
  if jsFalsy st.access_token || jsFalsy st.mc_code then ⟨true, []⟩
  else ⟨false, [hubsUrl (st.mc_code.getD "")]⟩

/-- DistributionDashboard's mount (`src/unnamed/part_002`, lines 41-66):
two effects run on mount.  The first navigates to `/login` when `token`
or `mc_code` is falsy.  The second checks only `mc_code`: when falsy it
navigates, otherwise it issues the hubs GET — so it still fires when the
token is absent but `mc_code` is present. -/
def distributionMount (st : SessionStore) : MountResult :=
  { redirect :=
      (jsFalsy st.access_token || jsFalsy st.mc_code) || jsFalsy st.mc_code
    requests := if jsFalsy st.mc_code then [] else [hubsUrl (st.mc_code.getD "")] }

/-- Outcome of a fetch's catch handler: resulting store, whether it
navigated to `/login`, and the error message it set. -/
structure FetchErrorResult where
  store : SessionStore
  navLogin : Bool
  error : String
deriving DecidableEq, Repr

/-- Dashboard `fetchHubs` catch (`src/unnamed/part_001`, lines 44-50):
on HTTP 401 it runs `handleLogout` (`localStorage.clear()` plus navigate
to `/login`); otherwise it sets the error message. -/
def dashboardFetchHubsOnError (st : SessionStore) (status : Nat) : FetchErrorResult :=
  if status = 401 then ⟨clearedStore, true, ""⟩
  else ⟨st, false, "⚠️ Failed to load hubs."⟩

/-- Dashboard `fetchTrend` catch (`src/unnamed/part_001`, lines 82-85):
on HTTP 401 it runs `handleLogout`, and in every case it sets the error
message (the `setError` is not in an `else`). -/
def dashboardFetchTrendOnError (st : SessionStore) (status : Nat) : FetchErrorResult :=
  if status = 401 then ⟨clearedStore, true, "Failed to fetch trend data."⟩
  else ⟨st, false, "Failed to fetch trend data."⟩

/-- Monitor hubs-fetch catch (`Monitor.jsx`, line 43): ignores the status
entirely — only sets the error message. -/
def monitorFetchHubsOnError (st : SessionStore) (_status : Nat) : FetchErrorResult :=
  ⟨st, false, "⚠️ Failed to load hubs."⟩

/-- Monitor `fetchAnomalies` catch (`Monitor.jsx`, lines 158-160): a bare
`catch` with no status inspection — only sets the error message. -/
def monitorFetchAnomaliesOnError (st : SessionStore) (_status : Nat) : FetchErrorResult :=
  ⟨st, false, "No anomalies found."⟩

/-- DistributionDashboard `fetchTrend` catch (`src/unnamed/part_002`,
lines 118-120): a bare `catch` — only sets the error message. -/
def distributionFetchTrendOnError (st : SessionStore) (_status : Nat) : FetchErrorResult :=
  ⟨st, false, "Trend data unavailable."⟩

/-- The JavaScript expression `x || y` on a nullable string `x`:
`null` and `""` are falsy and yield `y`. -/
def jsOrStr (x : Option String) (y : String) : String :=
  if jsFalsy x then y else x.getD ""

/-- Monitor `handlePredict` catch (`Monitor.jsx`, lines 93-97): no
status inspection — sets `err.response?.data?.detail || "Prediction
failed. Check backend logs."` and nothing else. -/
def monitorHandlePredictOnError (st : SessionStore) (_status : Nat)
    (detail : Option String) : FetchErrorResult :=
  ⟨st, false, jsOrStr detail "Prediction failed. Check backend logs."⟩

/-- Monitor `fetchTrend` catch (`Monitor.jsx`, lines 118-120): a bare
`catch` — only sets the error message. -/
def monitorFetchTrendOnError (st : SessionStore) (_status : Nat) : FetchErrorResult :=
  ⟨st, false, "Trend data unavailable."⟩

/-- Monitor `fetchYearlyTrend` catch (`Monitor.jsx`, lines 138-140): a
bare `catch` — only sets the error message. -/
def monitorFetchYearlyOnError (st : SessionStore) (_status : Nat) : FetchErrorResult :=
  ⟨st, false, "Yearly trend unavailable."⟩

/-- Monitor `fetchRecords` catch (`Monitor.jsx`, lines 178-180): a bare
`catch` — only sets the error message. -/
def monitorFetchRecordsOnError (st : SessionStore) (_status : Nat) : FetchErrorResult :=
  ⟨st, false, "No records found."⟩

/-- DistributionDashboard hubs-effect catch (`src/unnamed/part_002`,
line 65): ignores the status — only sets the error message. -/
def distributionFetchHubsOnError (st : SessionStore) (_status : Nat) : FetchErrorResult :=
  ⟨st, false, "⚠️ Failed to load hubs."⟩

/-- DistributionDashboard `handlePredict` catch (`src/unnamed/part_002`,
lines 95-97): no status inspection — sets
`err.response?.data?.detail || "Prediction failed."`. -/
def distributionHandlePredictOnError (st : SessionStore) (_status : Nat)
    (detail : Option String) : FetchErrorResult :=
  ⟨st, false, jsOrStr detail "Prediction failed."⟩

/-- DistributionDashboard `fetchYearlyTrend` catch
(`src/unnamed/part_002`, lines 140-142): a bare `catch`. -/
def distributionFetchYearlyOnError (st : SessionStore) (_status : Nat) : FetchErrorResult :=
  ⟨st, false, "Yearly trend unavailable."⟩

/-- DistributionDashboard `fetchCritical` catch (`src/unnamed/part_002`,
lines 156-158): a bare `catch`. -/
def distributionFetchCriticalOnError (st : SessionStore) (_status : Nat) : FetchErrorResult :=
  ⟨st, false, "No critical events found."⟩

/-- DistributionDashboard `fetchRecords` catch (`src/unnamed/part_002`,
lines 182-184): a bare `catch` — the token check before the request is
pre-flight, the catch ignores the status. -/
def distributionFetchRecordsOnError (st : SessionStore) (_status : Nat) : FetchErrorResult :=
  ⟨st, false, "No recent data available."⟩

/-- Dashboard's `axiosAuth` Authorization header value
(`src/unnamed/part_001`, lines 26-31): `token ? `Bearer ${token}` : ""` —
the header key is always present in the config; the ternary tests JS
truthiness, so the value is the empty string when the token is absent
or is the empty string. -/
def dashboardAuthHeaderValue (token : Option String) : Option String :=
  some (if jsFalsy token then "" else "Bearer " ++ token.getD "")

/-- JavaScript template-literal interpolation of a nullable string:
`null` prints as the text `"null"`. -/
def jsTemplateStr : Option String → String
  | some t => t
  | none => "null"

/-- DistributionDashboard's `axiosAuth` Authorization header value
(`src/unnamed/part_002`, lines 49-54): always `` `Bearer ${token}` `` —
when the token is absent this is the literal string `"Bearer null"`. -/
def distributionAuthHeaderValue (token : Option String) : Option String :=
  some ("Bearer " ++ jsTemplateStr token)

/-- The Authorization header on Monitor's requests (`Monitor.jsx`,
e.g. lines 40-43, 114-116): Monitor uses the plain global `axios` with no
headers configured, so no Authorization header is ever attached,
whatever the stored token. -/
def monitorRequestAuthHeader (_token : Option String) : Option String := none

/-- DistributionDashboard `fetchRecords` (`src/unnamed/part_002`, lines
162-185): re-reads the token; when falsy it navigates and issues no
request (`none`); otherwise it issues the GET with header
`Bearer <token>` (`some (some header)`). -/
def distributionRecordsRequest (token : Option String) : Option (Option String) :=
  if jsFalsy token then none
  else some (some ("Bearer " ++ token.getD ""))

/-- A JavaScript number as the prediction payload carries it: either `NaN`
or an ordinary numeric value (modelled as a rational). -/
inductive JSNum
  | nan
  | num (q : ℚ)
deriving DecidableEq, Repr

/-- Decimal digits to a natural number, most significant first. -/
def digitsToNat (ds : List Char) : ℕ :=
  ds.foldl (fun a c => 10 * a + (c.toNat - 48)) 0

/-- The JavaScript builtin `parseFloat`, modelled on decimal literals:
skip leading whitespace, an optional sign, integer digits, an optional
`.` with fraction digits; `NaN` when no digit is found.  (The builtin's
exponent, `Infinity` and trailing-garbage refinements are irrelevant to
the properties proved here, which hold for any parse result.) -/
def jsParseFloat (s : String) : JSNum :=
  let cs := s.data.dropWhile (fun c => c = ' ' ∨ c = '\t' ∨ c = '\n' ∨ c = '\r')
  let sgn : ℚ := match cs with
    | '-' :: _ => -1
    | _ => 1
  let cs1 := match cs with
    | '-' :: rest => rest
    | '+' :: rest => rest
    | _ => cs
  let intDigits := cs1.takeWhile Char.isDigit
  let cs2 := cs1.dropWhile Char.isDigit
  let fracDigits := match cs2 with
    | '.' :: rest => rest.takeWhile Char.isDigit
    | _ => []
  if intDigits = [] ∧ fracDigits = [] then JSNum.nan
  else
    JSNum.num (sgn * ((digitsToNat intDigits : ℚ) +
      (digitsToNat fracDigits : ℚ) / (10 ^ fracDigits.length)))

/-- The JavaScript expression `x || 0` on a number `x`: `NaN`, `0` and
`-0` are falsy and yield the literal `0`; any other number passes
through. -/
def jsOrZero : JSNum → JSNum
  | JSNum.nan => JSNum.num 0
  | JSNum.num q => if q = 0 then JSNum.num 0 else JSNum.num q

/-- Monitor `handlePredict`'s per-field coercion (`Monitor.jsx`, line 85):
`parseFloat(v) || 0`. -/
def monitorCoerce (v : String) : JSNum := jsOrZero (jsParseFloat v)

/-- The measurement part of Monitor `handlePredict`'s payload
(`Monitor.jsx`, lines 81-87): every `formData` entry is sent with its
value coerced by `parseFloat(v) || 0`.  (`MC_Code` and `Hub_ID` are the
string fields prepended to this map.) -/
def monitorPredictPayload (formData : List (String × String)) : List (String × JSNum) :=
  formData.map (fun kv => (kv.1, monitorCoerce kv.2))

/-- DistributionDashboard `handleChange` (`src/unnamed/part_002`, lines
68-71): `setFormData(prev => ({...prev, [name]: parseFloat(value) || 0}))`,
modelled as updating the named field of the form map with the coerced
value. -/
def distHandleChange (formData : List (String × JSNum)) (nm v : String) :
    List (String × JSNum) :=
  formData.map (fun kv => if kv.1 = nm then (kv.1, jsOrZero (jsParseFloat v)) else kv)

/-! ## The Monitor screen as an event system

`Monitor.jsx` keeps per-view `useState` slots (`result`, `trend`,
`yearlyTrend`, `anomalies`, `records`), an `activeView` tag, an error
message and a loading flag.  Each action handler synchronously resets the
other views' slots, sets `activeView`, checks the hub selection and, if a
hub is selected, issues a request; each network completion writes its
view's slot (or the error message) whenever it arrives — the source has
no sequence numbers and never compares the completing request against a
newer one.  Requests are identified by issue order (`nextId`), and an
event trace interleaves UI actions with completions. -/

/-- The five views of the Monitor screen. -/
inductive View
  | predict
  | trends
  | yearly
  | anomalies
  | records
deriving DecidableEq, Repr

/-- Response payloads, shaped per endpoint.  Opaque record contents are
modelled as naturals. -/
inductive RespData
  | predictD (r : ℕ)
  | trendD (l : List ℕ)
  | yearlyD (m : List (String × ℕ))
  | anomaliesD (l : List ℕ)
  | recordsD (l : List ℕ)
deriving DecidableEq, Repr

/-- The view a response payload belongs to. -/
def RespData.kind : RespData → View
  | predictD _ => View.predict
  | trendD _ => View.trends
  | yearlyD _ => View.yearly
  | anomaliesD _ => View.anomalies
  | recordsD _ => View.records

/-- A network completion: success with a payload, or a transport/HTTP
failure (landing in the handler's `catch`). -/
inductive NetOutcome
  | ok (d : RespData)
  | fail
deriving DecidableEq, Repr

/-- Monitor's `useState` slots plus the outstanding requests. -/
structure MonitorState where
  selectedHub : String
  activeView : Option View
  result : Option ℕ
  trend : List ℕ
  yearlyTrend : List (String × ℕ)
  anomalies : List ℕ
  records : List ℕ
  error : String
  loading : Bool
  pending : List (ℕ × View)
  nextId : ℕ
deriving DecidableEq, Repr

/-- Monitor's initial state (`useState` initializers). -/
def initMonitor : MonitorState :=
  { selectedHub := ""
    activeView := none
    result := none
    trend := []
    yearlyTrend := []
    anomalies := []
    records := []
    error := ""
    loading := false
    pending := []
    nextId := 0 }

/-- The synchronous part of each Monitor action handler
(`handlePredict`, `fetchTrend`, `fetchYearlyTrend`, `fetchAnomalies`,
`fetchRecords`; `Monitor.jsx` lines 70-181): set `activeView`, clear the
other views' slots and the error, then either fail fast with a local
message when no hub is selected, or issue the request. -/
def stepSelect (k : View) (s : MonitorState) : MonitorState :=
  match k with
  | View.predict =>
    let s1 := { s with
      error := ""
      result := none
      trend := []
      yearlyTrend := []
      anomalies := []
      records := []
      activeView := some View.predict }
    if s1.selectedHub = "" then
      { s1 with error := "Please select a Hub before prediction." }
    else
      { s1 with
        loading := true
        pending := s1.pending ++ [(s1.nextId, View.predict)]
        nextId := s1.nextId + 1 }
  | View.trends =>
    let s1 := { s with
      activeView := some View.trends
      result := none
      yearlyTrend := []
      anomalies := []
      records := []
      error := "" }
    if s1.selectedHub = "" then { s1 with error := "Select a hub first." }
    else
      { s1 with
        pending := s1.pending ++ [(s1.nextId, View.trends)]
        nextId := s1.nextId + 1 }
  | View.yearly =>
    let s1 := { s with
      activeView := some View.yearly
      result := none
      trend := []
      anomalies := []
      records := []
      error := "" }
    if s1.selectedHub = "" then { s1 with error := "Select a hub first." }
    else
      { s1 with
        pending := s1.pending ++ [(s1.nextId, View.yearly)]
        nextId := s1.nextId + 1 }
  | View.anomalies =>
    let s1 := { s with
      activeView := some View.anomalies
      result := none
      trend := []
      yearlyTrend := []
      records := []
      error := "" }
    if s1.selectedHub = "" then { s1 with error := "Select a hub first." }
    else
      { s1 with
        pending := s1.pending ++ [(s1.nextId, View.anomalies)]
        nextId := s1.nextId + 1 }
  | View.records =>
    let s1 := { s with
      activeView := some View.records
      result := none
      trend := []
      yearlyTrend := []
      anomalies := []
      error := "" }
    if s1.selectedHub = "" then { s1 with error := "Select a hub first." }
    else
      { s1 with
        pending := s1.pending ++ [(s1.nextId, View.records)]
        nextId := s1.nextId + 1 }

/-- The catch-branch error message of each Monitor fetch. -/
def monitorFailMsg : View → String
  | View.predict => "Prediction failed. Check backend logs."
  | View.trends => "Trend data unavailable."
  | View.yearly => "Yearly trend unavailable."
  | View.anomalies => "No anomalies found."
  | View.records => "No records found."

/-- Write a successful response's payload into its view's slot — exactly
what each `then`/`await` continuation does (`setResult`, `setTrend`, …),
with no staleness check of any kind. -/
def applyData (d : RespData) (s : MonitorState) : MonitorState :=
  match d with
  | RespData.predictD r => { s with result := some r }
  | RespData.trendD l => { s with trend := l }
  | RespData.yearlyD m => { s with yearlyTrend := m }
  | RespData.anomaliesD l => { s with anomalies := l }
  | RespData.recordsD l => { s with records := l }

/-- Completion of outstanding request `id`: if `id` is pending with kind
`k`, remove it (a promise settles once), reset `loading` when it was the
predict request, and run the continuation — the success continuation
writes the view slot, the catch sets the view's error message.  An `id`
that is not pending, or a payload of the wrong shape for `k`, is a
no-op (such events never arise in real traces; they make the step
total). -/
def stepResolve (id : ℕ) (out : NetOutcome) (s : MonitorState) : MonitorState :=
  match s.pending.lookup id with
  | none => s
  | some k =>
    let s1 := { s with
      pending := s.pending.filter (fun p => p.1 ≠ id)
      loading := if k = View.predict then false else s.loading }
    match out with
    | NetOutcome.fail => { s1 with error := monitorFailMsg k }
    | NetOutcome.ok d => if d.kind = k then applyData d s1 else s1

/-- An event of the Monitor screen: the user picks a hub, the user
triggers a view action, or an outstanding request completes. -/
inductive MEvent
  | setHub (h : String)
  | act (k : View)
  | net (id : ℕ) (out : NetOutcome)
deriving DecidableEq, Repr

/-- One event step. -/
def stepM : MEvent → MonitorState → MonitorState
  | MEvent.setHub h, s => { s with selectedHub := h }
  | MEvent.act k, s => stepSelect k s
  | MEvent.net id out, s => stepResolve id out s

/-- Run a trace of events from a state. -/
def runM (es : List MEvent) (s : MonitorState) : MonitorState :=
  es.foldl (fun s e => stepM e s) s

/-- The view selected by the last `act` event of a trace, from a given
current selection. -/
def lastSelectedAux (a : Option View) (es : List MEvent) : Option View :=
  es.foldl (fun a e => match e with
    | MEvent.act k => some k
    | _ => a) a

/-- The view selected by the last `act` event of a trace, if any. -/
def lastSelected (es : List MEvent) : Option View :=
  lastSelectedAux none es

/-- Which view's data section the Monitor JSX renders (`Monitor.jsx`,
lines 275, 355, 375, 395, 422): each section is gated on
`activeView === kind` and on that view's slot being non-empty. -/
def renderedKind (s : MonitorState) : Option View :=
  match s.activeView with
  | none => none
  | some View.predict => if s.result.isSome then some View.predict else none
  | some View.trends => if s.trend ≠ [] then some View.trends else none
  | some View.yearly => if s.yearlyTrend ≠ [] then some View.yearly else none
  | some View.anomalies => if s.anomalies ≠ [] then some View.anomalies else none
  | some View.records => if s.records ≠ [] then some View.records else none

/-- The rows the history table renders (`Monitor.jsx`, lines 422-448):
`records.slice(0, 10)` when the records view is active and non-empty. -/
def monitorRecordsRows (s : MonitorState) : List ℕ :=
  if s.activeView = some View.records ∧ s.records ≠ [] then s.records.take 10
  else []

/-- View slot `j` is empty in state `s`. -/
def mViewCleared (s : MonitorState) : View → Prop
  | View.predict => s.result = none
  | View.trends => s.trend = []
  | View.yearly => s.yearlyTrend = []
  | View.anomalies => s.anomalies = []
  | View.records => s.records = []

instance (s : MonitorState) (j : View) : Decidable (mViewCleared s j) := by
  cases j <;> (unfold mViewCleared; infer_instance)

/-! ## The DistributionDashboard screen as an event system

`src/unnamed/part_002` has the same shape as Monitor with views
`predict`, `trend`, `yearly`, `critical`, `records`.  Its `fetchCritical`
has no hub guard, and its `fetchRecords` re-reads the token and
navigates to `/login` instead of fetching when the token is falsy. -/

/-- The five views of the DistributionDashboard screen. -/
inductive DView
  | predict
  | trends
  | yearly
  | critical
  | records
deriving DecidableEq, Repr

/-- DistributionDashboard's `useState` slots plus the outstanding
requests, the (mount-time) token, and whether an in-screen handler
navigated to `/login`. -/
structure DistState where
  token : Option String
  selectedHub : String
  activeView : Option DView
  result : Option ℕ
  trend : List ℕ
  yearlyTrend : List (String × ℕ)
  critical : List ℕ
  records : List ℕ
  error : String
  loading : Bool
  pending : List (ℕ × DView)
  nextId : ℕ
  navLogin : Bool
deriving DecidableEq, Repr

/-- DistributionDashboard's initial state for a stored token. -/
def initDist (token : Option String) : DistState :=
  { token := token
    selectedHub := ""
    activeView := none
    result := none
    trend := []
    yearlyTrend := []
    critical := []
    records := []
    error := ""
    loading := false
    pending := []
    nextId := 0
    navLogin := false }

/-- The synchronous part of each DistributionDashboard action handler
(`handlePredict`, `fetchTrend`, `fetchYearlyTrend`, `fetchCritical`,
`fetchRecords`; `src/unnamed/part_002` lines 74-185): set `activeView`,
clear the other views' slots and the error, then guard (`handlePredict`,
`fetchTrend`, `fetchYearlyTrend` require a hub; `fetchCritical` has no
guard; `fetchRecords` requires a token, else navigates) and issue the
request. -/
def distStepSelect (k : DView) (s : DistState) : DistState :=
  match k with
  | DView.predict =>
    let s1 := { s with
      error := ""
      result := none
      trend := []
      yearlyTrend := []
      critical := []
      records := []
      activeView := some DView.predict }
    if s1.selectedHub = "" then
      { s1 with error := "Please select a Hub before prediction." }
    else
      { s1 with
        loading := true
        pending := s1.pending ++ [(s1.nextId, DView.predict)]
        nextId := s1.nextId + 1 }
  | DView.trends =>
    let s1 := { s with
      activeView := some DView.trends
      result := none
      yearlyTrend := []
      critical := []
      records := []
      error := "" }
    if s1.selectedHub = "" then { s1 with error := "Select a hub first." }
    else
      { s1 with
        pending := s1.pending ++ [(s1.nextId, DView.trends)]
        nextId := s1.nextId + 1 }
  | DView.yearly =>
    let s1 := { s with
      activeView := some DView.yearly
      result := none
      trend := []
      critical := []
      records := []
      error := "" }
    if s1.selectedHub = "" then { s1 with error := "Select a hub first." }
    else
      { s1 with
        pending := s1.pending ++ [(s1.nextId, DView.yearly)]
        nextId := s1.nextId + 1 }
  | DView.critical =>
    let s1 := { s with
      activeView := some DView.critical
      result := none
      trend := []
      yearlyTrend := []
      records := []
      error := "" }
    { s1 with
      pending := s1.pending ++ [(s1.nextId, DView.critical)]
      nextId := s1.nextId + 1 }
  | DView.records =>
    let s1 := { s with
      activeView := some DView.records
      result := none
      trend := []
      yearlyTrend := []
      critical := []
      error := "" }
    if jsFalsy s1.token then { s1 with navLogin := true }
    else
      { s1 with
        pending := s1.pending ++ [(s1.nextId, DView.records)]
        nextId := s1.nextId + 1 }

/-- View slot `j` is empty in a DistributionDashboard state. -/
def dViewCleared (s : DistState) : DView → Prop
  | DView.predict => s.result = none
  | DView.trends => s.trend = []
  | DView.yearly => s.yearlyTrend = []
  | DView.critical => s.critical = []
  | DView.records => s.records = []

instance (s : DistState) (j : DView) : Decidable (dViewCleared s j) := by
  cases j <;> (unfold dViewCleared; infer_instance)

/-- DistributionDashboard response payloads, shaped per endpoint. -/
inductive DRespData
  | predictD (r : ℕ)
  | trendD (l : List ℕ)
  | yearlyD (m : List (String × ℕ))
  | criticalD (l : List ℕ)
  | recordsD (l : List ℕ)
deriving DecidableEq, Repr

/-- The view a DistributionDashboard payload belongs to. -/
def DRespData.kind : DRespData → DView
  | predictD _ => DView.predict
  | trendD _ => DView.trends
  | yearlyD _ => DView.yearly
  | criticalD _ => DView.critical
  | recordsD _ => DView.records

/-- The catch-branch error message of each DistributionDashboard fetch. -/
def distFailMsg : DView → String
  | DView.predict => "Prediction failed."
  | DView.trends => "Trend data unavailable."
  | DView.yearly => "Yearly trend unavailable."
  | DView.critical => "No critical events found."
  | DView.records => "No recent data available."

/-- Write a successful response's payload into its DistributionDashboard
view slot (`setResult`, `setTrend`, `setYearlyTrend`, `setCritical`,
`setRecords`) — applied whenever the promise settles, with no staleness
check. -/
def distApplyData (d : DRespData) (s : DistState) : DistState :=
  match d with
  | DRespData.predictD r => { s with result := some r }
  | DRespData.trendD l => { s with trend := l }
  | DRespData.yearlyD m => { s with yearlyTrend := m }
  | DRespData.criticalD l => { s with critical := l }
  | DRespData.recordsD l => { s with records := l }

/-- Completion of DistributionDashboard request `id`, analogous to
`stepResolve`. -/
def distStepResolve (id : ℕ) (out : Option DRespData) (s : DistState) : DistState :=
  match s.pending.lookup id with
  | none => s
  | some k =>
    let s1 := { s with
      pending := s.pending.filter (fun p => p.1 ≠ id)
      loading := if k = DView.predict then false else s.loading }
    match out with
    | none => { s1 with error := distFailMsg k }
    | some d => if d.kind = k then distApplyData d s1 else s1

/-- An event of the DistributionDashboard screen. -/
inductive DEvent
  | setHub (h : String)
  | act (k : DView)
  | net (id : ℕ) (out : Option DRespData)
deriving DecidableEq, Repr

/-- One DistributionDashboard event step. -/
def stepD : DEvent → DistState → DistState
  | DEvent.setHub h, s => { s with selectedHub := h }
  | DEvent.act k, s => distStepSelect k s
  | DEvent.net id out, s => distStepResolve id out s

/-- Run a DistributionDashboard trace. -/
def runD (es : List DEvent) (s : DistState) : DistState :=
  es.foldl (fun s e => stepD e s) s

/-- The view selected by the last `act` event of a
DistributionDashboard trace, from a given current selection. -/
def dLastSelectedAux (a : Option DView) (es : List DEvent) : Option DView :=
  es.foldl (fun a e => match e with
    | DEvent.act k => some k
    | _ => a) a

/-- The view selected by the last `act` event of a trace, if any. -/
def dLastSelected (es : List DEvent) : Option DView :=
  dLastSelectedAux none es

/-- Which view's data section the DistributionDashboard JSX renders
(`src/unnamed/part_002`, lines 279, 327, 347, 367, 394): each section is
gated on `activeView === kind` and that view's slot being non-empty. -/
def dRenderedKind (s : DistState) : Option DView :=
  match s.activeView with
  | none => none
  | some DView.predict => if s.result.isSome then some DView.predict else none
  | some DView.trends => if s.trend ≠ [] then some DView.trends else none
  | some DView.yearly => if s.yearlyTrend ≠ [] then some DView.yearly else none
  | some DView.critical => if s.critical ≠ [] then some DView.critical else none
  | some DView.records => if s.records ≠ [] then some DView.records else none

/-! ## Helper lemmas -/

/-- Every Monitor action handler sets `activeView` to its own view. -/
lemma stepSelect_activeView (k : View) (s : MonitorState) :
    (stepSelect k s).activeView = some k := by
  cases k <;> (unfold stepSelect; dsimp only; split <;> rfl)

/-- A network completion never changes Monitor's `activeView`. -/
lemma stepResolve_activeView (id : ℕ) (out : NetOutcome) (s : MonitorState) :
    (stepResolve id out s).activeView = s.activeView := by
  unfold stepResolve
  cases s.pending.lookup id with
  | none => rfl
  | some k =>
    cases out with
    | fail => rfl
    | ok d =>
      dsimp only
      split
      · cases d <;> rfl
      · rfl

/-- `activeView` after a Monitor trace is the last selected view,
starting from the state's current one. -/
lemma runM_activeView (es : List MEvent) (s : MonitorState) :
    (runM es s).activeView = lastSelectedAux s.activeView es := by
  induction es generalizing s with
  | nil => rfl
  | cons e es ih =>
    simp only [runM, lastSelectedAux, List.foldl_cons] at ih ⊢
    rw [ih]
    congr 1
    cases e with
    | setHub h => rfl
    | act k => exact stepSelect_activeView k s
    | net id out => exact stepResolve_activeView id out s

/-- The Monitor render gate only shows the active view. -/
lemma renderedKind_activeView (s : MonitorState) (k : View) :
    renderedKind s = some k → s.activeView = some k := by
  unfold renderedKind
  cases h : s.activeView with
  | none => intro hc; cases hc
  | some v =>
    cases v <;> (intro hc; split at hc <;> simp_all)

/-- Every DistributionDashboard action handler sets `activeView` to its
own view. -/
lemma distStepSelect_activeView (k : DView) (s : DistState) :
    (distStepSelect k s).activeView = some k := by
  cases k <;> (unfold distStepSelect; dsimp only) <;> (try split) <;> rfl

/-- A network completion never changes DistributionDashboard's
`activeView`. -/
lemma distStepResolve_activeView (id : ℕ) (out : Option DRespData) (s : DistState) :
    (distStepResolve id out s).activeView = s.activeView := by
  unfold distStepResolve
  cases s.pending.lookup id with
  | none => rfl
  | some k =>
    cases out with
    | none => rfl
    | some d =>
      dsimp only
      split
      · cases d <;> rfl
      · rfl

/-- `activeView` after a DistributionDashboard trace is the last selected
view, starting from the state's current one. -/
lemma runD_activeView (es : List DEvent) (s : DistState) :
    (runD es s).activeView = dLastSelectedAux s.activeView es := by
  induction es generalizing s with
  | nil => rfl
  | cons e es ih =>
    simp only [runD, dLastSelectedAux, List.foldl_cons] at ih ⊢
    rw [ih]
    congr 1
    cases e with
    | setHub h => rfl
    | act k => exact distStepSelect_activeView k s
    | net id out => exact distStepResolve_activeView id out s

/-- The DistributionDashboard render gate only shows the active view. -/
lemma dRenderedKind_activeView (s : DistState) (k : DView) :
    dRenderedKind s = some k → s.activeView = some k := by
  unfold dRenderedKind
  cases h : s.activeView with
  | none => intro hc; cases hc
  | some v =>
    cases v <;> (intro hc; split at hc <;> simp_all)

/-! ## Claims -/

/-- C1 (counterexample): the spec's own scenario — a trend fetch is
issued, an anomalies fetch is issued before it resolves, anomalies
resolves, then the trend response arrives late.  The claim says the late
response is silently dropped (so `trend` would stay `[]`); in the code
the continuation runs unconditionally and writes `trend := [7]` — there
is no sequence-number gate.  (The anomalies view is what is rendered, so
the stale data sits unrendered in state.) -/
theorem C1_late_response_applied_counterexample :
    (runM [MEvent.setHub "H1", MEvent.act View.trends, MEvent.act View.anomalies,
      MEvent.net 1 (NetOutcome.ok (RespData.anomaliesD [5])),
      MEvent.net 0 (NetOutcome.ok (RespData.trendD [7]))] initMonitor).trend = [7] ∧
    renderedKind (runM [MEvent.setHub "H1", MEvent.act View.trends, MEvent.act View.anomalies,
      MEvent.net 1 (NetOutcome.ok (RespData.anomaliesD [5])),
      MEvent.net 0 (NetOutcome.ok (RespData.trendD [7]))] initMonitor) =
      some View.anomalies := by
  decide

/-- C1 (amended): for every interleaving of view-switch actions and
network completions on Monitor or DistributionDashboard, only the most
recently selected viewKind's data is ever rendered — enforced not by
sequence numbers (late responses are applied to their view's state slot)
but by each render section being gated on `activeView === kind`, which
always equals the last selected view. -/
theorem C1_rendered_view_is_last_selected :
    (∀ (es : List MEvent) (k : View),
      renderedKind (runM es initMonitor) = some k → lastSelected es = some k) ∧
    (∀ (tok : Option String) (es : List DEvent) (k : DView),
      dRenderedKind (runD es (initDist tok)) = some k → dLastSelected es = some k) := by
  constructor
  · intro es k h
    have h1 := renderedKind_activeView _ _ h
    rw [runM_activeView] at h1
    exact h1
  · intro tok es k h
    have h1 := dRenderedKind_activeView _ _ h
    rw [runD_activeView] at h1
    exact h1

/-- C1 witness: on a concrete trace that selects anomalies and resolves
it, the rendered view is the anomalies view, which is the last
selected. -/
theorem C1_rendered_view_witness :
    lastSelected [MEvent.setHub "H1", MEvent.act View.anomalies,
      MEvent.net 0 (NetOutcome.ok (RespData.anomaliesD [5]))] = some View.anomalies :=
  C1_rendered_view_is_last_selected.1
    [MEvent.setHub "H1", MEvent.act View.anomalies,
      MEvent.net 0 (NetOutcome.ok (RespData.anomaliesD [5]))]
    View.anomalies (by decide)

/-- C8 (counterexample): after switching from the records view to the
yearly view, the yearly response resolves, then the records response
arrives late and is written back — the final state holds both views'
payloads at once, contradicting "at most one view's data is held at any
time". -/
theorem C8_two_views_data_held_counterexample :
    (runM [MEvent.setHub "H2", MEvent.act View.records, MEvent.act View.yearly,
      MEvent.net 1 (NetOutcome.ok (RespData.yearlyD [("2024", 9)])),
      MEvent.net 0 (NetOutcome.ok (RespData.recordsD [3]))] initMonitor).yearlyTrend ≠ [] ∧
    (runM [MEvent.setHub "H2", MEvent.act View.records, MEvent.act View.yearly,
      MEvent.net 1 (NetOutcome.ok (RespData.yearlyD [("2024", 9)])),
      MEvent.net 0 (NetOutcome.ok (RespData.recordsD [3]))] initMonitor).records ≠ [] := by
  decide

/-- C8 (amended): every view-switch action on Monitor or
DistributionDashboard synchronously clears all views' cached payloads
other than the newly selected view's, before any response resolves — so
immediately after the switch at most the selected view's data is held
(a late response from an earlier request can later repopulate another
view's slot, though it is never rendered). -/
theorem C8_switch_clears_other_views :
    (∀ (s : MonitorState) (k j : View), j ≠ k → mViewCleared (stepSelect k s) j) ∧
    (∀ (s : DistState) (k j : DView), j ≠ k → dViewCleared (distStepSelect k s) j) := by
  constructor
  · intro s k j h
    cases k <;> cases j <;> (try exact absurd rfl h) <;>
      (unfold mViewCleared stepSelect; dsimp only; split <;> rfl)
  · intro s k j h
    cases k <;> cases j <;> (try exact absurd rfl h) <;>
      (unfold dViewCleared distStepSelect; dsimp only) <;> (try split) <;> rfl

/-- C8 witness: switching a concrete populated state to the trend view
clears the records slot. -/
theorem C8_switch_clears_witness :
    mViewCleared
      (stepSelect View.trends
        { initMonitor with selectedHub := "H1", records := [1, 2] })
      View.records :=
  C8_switch_clears_other_views.1
    { initMonitor with selectedHub := "H1", records := [1, 2] }
    View.trends View.records (by decide)

/-- C7 (confirmed): on both prediction handlers (`handlePredict` on
Monitor and on DistributionDashboard), when no hub is selected the
handler sets the local validation message and issues no request (the
pending-request list is unchanged). -/
theorem C7_no_hub_validation_no_request :
    (∀ s : MonitorState, s.selectedHub = "" →
      (stepSelect View.predict s).pending = s.pending ∧
      (stepSelect View.predict s).error = "Please select a Hub before prediction.") ∧
    (∀ s : DistState, s.selectedHub = "" →
      (distStepSelect DView.predict s).pending = s.pending ∧
      (distStepSelect DView.predict s).error = "Please select a Hub before prediction.") := by
  constructor
  · intro s h
    unfold stepSelect
    dsimp only
    rw [if_pos h]
    exact ⟨rfl, rfl⟩
  · intro s h
    unfold distStepSelect
    dsimp only
    rw [if_pos h]
    exact ⟨rfl, rfl⟩

/-- C7 witness: in the initial states (no hub selected) the predict
action issues no request and sets the validation message. -/
theorem C7_no_hub_witness :
    (stepSelect View.predict initMonitor).pending = initMonitor.pending ∧
    (stepSelect View.predict initMonitor).error = "Please select a Hub before prediction." :=
  C7_no_hub_validation_no_request.1 initMonitor rfl

/-- C9 (confirmed): the Monitor history section renders
`records.slice(0, 10)` — at most ten rows, and always an initial
segment of the records list in the order received. -/
theorem C9_history_renders_at_most_ten :
    ∀ s : MonitorState,
      (monitorRecordsRows s).length ≤ 10 ∧ monitorRecordsRows s <+: s.records := by
  intro s
  unfold monitorRecordsRows
  split
  · refine ⟨?_, List.take_prefix 10 s.records⟩
    rw [List.length_take]
    exact min_le_left _ _
  · exact ⟨by simp, List.nil_prefix⟩

/-- C2 (code bug): with the spec's credentials and success response
`{status:"success", token:"abc", mc_code:"MC01", mc_name:"Test City"}`,
`handleLogin` stores the municipality code and name and navigates to the
dashboard — but never stores the token: `access_token` remains absent,
so the session does not hold the claimed triple (and the dashboard's own
`if (!token)` guard then bounces straight back to login). -/
theorem C2_login_success_omits_token :
    (handleLogin emptyStore "u1" ⟨"success", "abc", "MC01", "Test City"⟩).1.access_token
      = none ∧
    (handleLogin emptyStore "u1" ⟨"success", "abc", "MC01", "Test City"⟩).1.mc_code
      = some "MC01" ∧
    (handleLogin emptyStore "u1" ⟨"success", "abc", "MC01", "Test City"⟩).1.mc_name
      = some "Test City" ∧
    (handleLogin emptyStore "u1" ⟨"success", "abc", "MC01", "Test City"⟩).2.1
      = Nav.dashboard := by
  decide

/-- C3 (code bug): a successful login from the empty store produces a
state in which exactly one of the pair is present — the municipality
code is set but the auth token is not — violating the invariant that
the two are set and cleared together. -/
theorem C3_login_success_breaks_token_mc_pairing :
    jsFalsy (handleLogin emptyStore "u1"
      ⟨"success", "abc", "MC01", "Test City"⟩).1.access_token = true ∧
    jsFalsy (handleLogin emptyStore "u1"
      ⟨"success", "abc", "MC01", "Test City"⟩).1.mc_code = false := by
  decide

/-- C4 (counterexample): a 401 on Monitor's anomalies fetch, with a
token-bearing session in storage, leaves the session store untouched
(stale token included), does not redirect, and only sets the generic
error message — contradicting "if the response is HTTP 401 then the
session store is cleared and navigation redirects to login" for every
in-screen fetch. -/
theorem C4_monitor_401_keeps_session_counterexample :
    monitorFetchAnomaliesOnError ⟨some "abc", some "MC01", some "Test City", none⟩ 401 =
      ⟨⟨some "abc", some "MC01", some "Test City", none⟩, false, "No anomalies found."⟩ := by
  decide

/-- C4 (amended): only Dashboard's fetches handle 401 — `fetchHubs` and
`fetchTrend` clear the session and redirect to login on a 401; every
in-screen fetch of Monitor (hubs effect, `handlePredict`, `fetchTrend`,
`fetchYearlyTrend`, `fetchAnomalies`, `fetchRecords`) and of
DistributionDashboard (hubs effect, `handlePredict`, `fetchTrend`,
`fetchYearlyTrend`, `fetchCritical`, `fetchRecords`) ignores the
status, leaving the session (and its stale token) in place and the
navigation unchanged, with only a local error message set. -/
theorem C4_401_handling_per_fetch :
    ∀ (st : SessionStore) (detail : Option String),
      dashboardFetchHubsOnError st 401 = ⟨clearedStore, true, ""⟩ ∧
      dashboardFetchTrendOnError st 401 =
        ⟨clearedStore, true, "Failed to fetch trend data."⟩ ∧
      monitorFetchHubsOnError st 401 = ⟨st, false, "⚠️ Failed to load hubs."⟩ ∧
      monitorHandlePredictOnError st 401 detail =
        ⟨st, false, jsOrStr detail "Prediction failed. Check backend logs."⟩ ∧
      monitorFetchTrendOnError st 401 = ⟨st, false, "Trend data unavailable."⟩ ∧
      monitorFetchYearlyOnError st 401 = ⟨st, false, "Yearly trend unavailable."⟩ ∧
      monitorFetchAnomaliesOnError st 401 = ⟨st, false, "No anomalies found."⟩ ∧
      monitorFetchRecordsOnError st 401 = ⟨st, false, "No records found."⟩ ∧
      distributionFetchHubsOnError st 401 = ⟨st, false, "⚠️ Failed to load hubs."⟩ ∧
      distributionHandlePredictOnError st 401 detail =
        ⟨st, false, jsOrStr detail "Prediction failed."⟩ ∧
      distributionFetchTrendOnError st 401 = ⟨st, false, "Trend data unavailable."⟩ ∧
      distributionFetchYearlyOnError st 401 =
        ⟨st, false, "Yearly trend unavailable."⟩ ∧
      distributionFetchCriticalOnError st 401 =
        ⟨st, false, "No critical events found."⟩ ∧
      distributionFetchRecordsOnError st 401 =
        ⟨st, false, "No recent data available."⟩ := by
  intro st detail
  exact ⟨rfl, rfl, rfl, rfl, rfl, rfl, rfl, rfl, rfl, rfl, rfl, rfl, rfl, rfl⟩

/-- C5 (counterexample): with the municipality code present but no token
stored — a session the Session Store reports as unauthenticated, and
exactly what a successful login leaves behind — Monitor's mount does not
redirect and issues the hubs request, contradicting "redirects to login
and issues zero network requests". -/
theorem C5_monitor_fetches_without_token_counterexample :
    jsFalsy (SessionStore.access_token ⟨none, some "MC01", some "Test City", none⟩) = true ∧
    monitorMount ⟨none, some "MC01", some "Test City", none⟩ =
      ⟨false, [hubsUrl "MC01"]⟩ := by
  decide

/-- C5 (amended): when the municipality code is absent at mount, every
authenticated screen (Dashboard, Monitor, DistributionDashboard)
redirects to login and issues zero network requests.  (Monitor's guard
checks only the municipality code, so a missing token alone does not
prevent its hubs fetch; DistributionDashboard's second mount effect
likewise fetches whenever the code is present.) -/
theorem C5_missing_mc_redirects_no_requests :
    ∀ st : SessionStore, jsFalsy st.mc_code = true →
      monitorMount st = ⟨true, []⟩ ∧
      dashboardMount st = ⟨true, []⟩ ∧
      distributionMount st = ⟨true, []⟩ := by
  intro st h
  refine ⟨?_, ?_, ?_⟩
  · unfold monitorMount
    rw [if_pos h]
  · unfold dashboardMount
    rw [if_pos (by rw [h, Bool.or_true])]
  · unfold distributionMount
    rw [MountResult.mk.injEq]
    constructor
    · rw [h, Bool.or_true]
    · rw [if_pos h]

/-- C5 witness: on the empty store every screen redirects with zero
requests. -/
theorem C5_missing_mc_witness :
    monitorMount emptyStore = ⟨true, []⟩ ∧
    dashboardMount emptyStore = ⟨true, []⟩ ∧
    distributionMount emptyStore = ⟨true, []⟩ :=
  C5_missing_mc_redirects_no_requests emptyStore rfl

/-- C6 (counterexample): with a token present, Monitor's hubs request —
a protected endpoint — carries no Authorization header at all; and with
no token present the header is not omitted by the other clients:
Dashboard's client sends an empty Authorization value and
DistributionDashboard's client sends the literal `Bearer null`. -/
theorem C6_monitor_no_auth_header_counterexample :
    monitorRequestAuthHeader (some "abc") = none ∧
    dashboardAuthHeaderValue none = some "" ∧
    distributionAuthHeaderValue none = some "Bearer null" :=
  ⟨rfl, rfl, rfl⟩

/-- C6 (amended): the Authorization header depends on which client issues
the request, not uniformly on the session.  Dashboard's `axiosAuth`
sends `Bearer <token>` when a truthy token is present and an
empty-valued Authorization header when the token is absent or empty;
DistributionDashboard's `axiosAuth` always sends a header, degenerating
to `Bearer null` without a token (and `Bearer ` for an empty one);
Monitor's requests never carry the header; only DistributionDashboard's
history fetch attaches `Bearer <token>` exactly when a truthy token is
present and issues no request otherwise. -/
theorem C6_auth_header_per_client :
    ∀ t : String,
      dashboardAuthHeaderValue (some t) =
        some (if t = "" then "" else "Bearer " ++ t) ∧
      dashboardAuthHeaderValue none = some "" ∧
      distributionAuthHeaderValue (some t) = some ("Bearer " ++ t) ∧
      distributionAuthHeaderValue none = some "Bearer null" ∧
      monitorRequestAuthHeader (some t) = none ∧
      monitorRequestAuthHeader none = none ∧
      distributionRecordsRequest none = none ∧
      distributionRecordsRequest (some t) =
        (if t = "" then none else some (some ("Bearer " ++ t))) := by
  intro t
  refine ⟨?_, rfl, rfl, rfl, rfl, rfl, rfl, ?_⟩
  · unfold dashboardAuthHeaderValue jsFalsy
    by_cases h : t = "" <;> simp [h]
  · unfold distributionRecordsRequest jsFalsy
    by_cases h : t = "" <;> simp [h]

/-- C10 (confirmed): every measurement value Monitor's `handlePredict`
sends is `parseFloat(v) || 0` — never `NaN`: a `NaN` parse (empty input
included) is sent as `0`; and DistributionDashboard's `handleChange`
applies the same coercion, so a field it updates is never `NaN`
either. -/
theorem C10_predict_payload_never_nan :
    (∀ (fd : List (String × String)), ∀ kv ∈ monitorPredictPayload fd,
      kv.2 ≠ JSNum.nan) ∧
    (∀ v : String, jsParseFloat v = JSNum.nan → monitorCoerce v = JSNum.num 0) ∧
    (∀ (fd : List (String × JSNum)) (nm v : String), ∀ kv ∈ distHandleChange fd nm v,
      kv.1 = nm → kv ∈ fd ∨ kv.2 ≠ JSNum.nan) := by
  have horz : ∀ n : JSNum, jsOrZero n ≠ JSNum.nan := by
    intro n
    cases n with
    | nan => simp [jsOrZero]
    | num q =>
      show (if q = 0 then JSNum.num 0 else JSNum.num q) ≠ JSNum.nan
      split <;> simp
  refine ⟨?_, ?_, ?_⟩
  · intro fd kv hkv
    unfold monitorPredictPayload at hkv
    obtain ⟨ab, _, rfl⟩ := List.mem_map.mp hkv
    exact horz _
  · intro v h
    unfold monitorCoerce
    rw [h]
    rfl
  · intro fd nm v kv hkv _
    unfold distHandleChange at hkv
    obtain ⟨ab, hab, heq⟩ := List.mem_map.mp hkv
    by_cases h1 : ab.1 = nm
    · rw [if_pos h1] at heq
      right
      rw [← heq]
      exact horz _
    · rw [if_neg h1] at heq
      left
      rw [← heq]
      exact hab

/-- C10 witness: the empty input parses to `NaN` and is sent as `0`. -/
theorem C10_predict_payload_witness : monitorCoerce "" = JSNum.num 0 :=
  C10_predict_payload_never_nan.2.1 "" (by decide)

end SmartWater
